import Mathlib

/-!
Verification of `generate_srt.py` (repository `srt_gen`).

The script is a subtitle-generation pipeline: it resolves a media input
(local path or YouTube URL), allocates a numbered output folder, probes the
frame rate with ffprobe, transcribes with Whisper, writes an SRT file, and
invokes an external `srt2subtitles` tool.

This file is a shallow embedding of that script.  Python floats are modelled
as exact rationals (ℚ); Python's `round` (banker's rounding, i.e. round half
to even) is modelled by `pyRound`.  External effects (filesystem listing,
subprocess outcomes, the Whisper transcription result) are passed in
explicitly as an environment, and `main` is a pure function from that
environment to a record of the run's observable outcome (exit code, files
written, log lines).
-/

namespace SrtGen

/-! ## Python primitives used by the script -/

/-- The characters stripped by Python's `str.strip()` (ASCII whitespace;
the rarely-seen vertical tab and form feed included). -/
def isPySpace (c : Char) : Bool :=
  c = ' ' || c = '\t' || c = '\n' || c = '\r' || c = '\x0b' || c = '\x0c'

/-- Python `str.strip()`: drop leading and trailing whitespace. -/
def pyStrip (s : String) : String :=
  String.mk (((s.toList.dropWhile isPySpace).reverse.dropWhile isPySpace).reverse)

/-- Substring containment, Python's `pat in s`. -/
def containsAux (pat : List Char) : List Char → Bool
  | [] => pat.isEmpty
  | c :: rest => pat.isPrefixOf (c :: rest) || containsAux pat rest

/-- Embeds Python's `pat in s` on strings: `strContainsSub s pat`. -/
def strContainsSub (s pat : String) : Bool :=
  containsAux pat.toList s.toList

/-- Floor of a rational, Python's `math.floor`. -/
def ratFloor (q : ℚ) : ℤ := Rat.floor q

/-- Python's built-in `round` with no digits argument: round half to even. -/
def pyRound (q : ℚ) : ℤ :=
  let f := ratFloor q
  let frac := q - f
  if frac < 1/2 then f
  else if 1/2 < frac then f + 1
  else if f % 2 = 0 then f else f + 1

/-- Python's `round(x, 3)`: round half to even at the third decimal. -/
def round3 (q : ℚ) : ℚ := (pyRound (q * 1000) : ℚ) / 1000

/-- Python's `int(x)` on a float: truncation toward zero. -/
def pyTrunc (q : ℚ) : ℤ :=
  if q < 0 then -ratFloor (-q) else ratFloor q

/-- Value of a string of ASCII decimal digits. -/
def digitsToNat (cs : List Char) : ℕ :=
  cs.foldl (fun a c => a * 10 + (c.toNat - 48)) 0

/-- Split a character list at every separator recognized by `p`, Python's
`str.split(sep)` for a one-character separator class.  Helper for the
string processing below. -/
def splitOnPredAux (p : Char → Bool) : List Char → List Char → List (List Char)
  | [], acc => [acc.reverse]
  | x :: rest, acc =>
    if p x then acc.reverse :: splitOnPredAux p rest []
    else splitOnPredAux p rest (x :: acc)

/-- Split at every character satisfying `p`; `splitOnPred p l` always has
one more element than the number of separators in `l`. -/
def splitOnPred (p : Char → Bool) (l : List Char) : List (List Char) :=
  splitOnPredAux p l []

/-- A nonempty all-digit token, as a natural number. Helper for `pyFloat`. -/
def parseDigitsNat (cs : List Char) : Option ℕ :=
  if !cs.isEmpty && cs.all Char.isDigit then some (digitsToNat cs) else none

/-- The mantissa of a Python float literal: `digits`, `digits.digits`,
`digits.` or `.digits`.  Helper for `pyFloat`. -/
def parseUnsignedDecL (cs : List Char) : Option ℚ :=
  match splitOnPred (fun c => c = '.') cs with
  | [ip] =>
    if !ip.isEmpty && ip.all Char.isDigit then some (digitsToNat ip) else none
  | [ip, fp] =>
    if (ip.length + fp.length > 0) && ip.all Char.isDigit
        && fp.all Char.isDigit then
      some ((digitsToNat ip : ℚ) + (digitsToNat fp : ℚ) / (10 : ℚ) ^ fp.length)
    else none
  | _ => none

/-- An optional leading sign in front of a numeric token. Helper for
`pyFloat`. -/
def parseSignedL (f : List Char → Option ℚ) : List Char → Option ℚ
  | '-' :: rest => (f rest).map (fun q => -q)
  | '+' :: rest => f rest
  | l => f l

/-- A signed all-digit exponent token. Helper for `pyFloat`. -/
def parseExpL : List Char → Option ℤ
  | '-' :: rest => (parseDigitsNat rest).map (fun n => -(n : ℤ))
  | '+' :: rest => (parseDigitsNat rest).map (fun n => (n : ℤ))
  | l => (parseDigitsNat l).map (fun n => (n : ℤ))

/-- Python's `float(s)` on the finite decimal grammar
`[ws] [sign] (digits [. digits] | . digits) [(e|E) [sign] digits] [ws]`,
returning `none` where Python raises `ValueError`.  The special values
`inf`/`nan`, digit-group underscores and non-ASCII digits are outside this
rational model; the probe outputs relevant here are plain decimals and
rationals of decimals. -/
def pyFloatL (cs : List Char) : Option ℚ :=
  let t := (((cs.dropWhile isPySpace).reverse.dropWhile isPySpace).reverse)
  match splitOnPred (fun c => c = 'e' || c = 'E') t with
  | [m] => parseSignedL parseUnsignedDecL m
  | [m, ex] =>
    match parseSignedL parseUnsignedDecL m, parseExpL ex with
    | some mq, some e =>
      some (if 0 ≤ e then mq * (10 : ℚ) ^ e.toNat else mq / (10 : ℚ) ^ (-e).toNat)
    | _, _ => none
  | _ => none

/-- Zero-padded decimal rendering of a nonnegative value, Python's
padding format specifier of width `w`: digits left-padded with zeros
(wider values are printed in full). -/
def zpad (w : ℕ) (n : ℕ) : String :=
  let s := Nat.repr n
  String.mk (List.replicate (w - s.length) '0') ++ s

/-! ## The script's pure functions -/

/-- Embeds `is_youtube_url` (line 37): `"youtube.com" in s or "youtu.be" in s`.
A plain substring test on the whole input string. -/
def is_youtube_url (s : String) : Bool :=
  strContainsSub s "youtube.com" || strContainsSub s "youtu.be"

/-- One entry of a directory listing.  `os.listdir` yields only the `name`;
the `isDir` flag records whether the underlying entry is a directory, which
the script never inspects.  Names are modelled as ASCII strings, and the
regex `^\d{3}$` as an exact three-ASCII-digit match. -/
structure DirEntry where
  name : String
  isDir : Bool
deriving DecidableEq

/-- The filter `re.match(r"^\d{3}$", d)` of `next_output_folder`. -/
def isThreeDigits (s : String) : Bool :=
  s.length = 3 && s.toList.all Char.isDigit

/-- Insert into a descending-sorted list; helper for `sortDesc`. -/
def insertDesc (n : ℕ) : List ℕ → List ℕ
  | [] => [n]
  | m :: rest => if m ≤ n then n :: m :: rest else m :: insertDesc n rest

/-- The script's `sorted(nums, reverse=True)`, as an insertion sort. -/
def sortDesc (l : List ℕ) : List ℕ := l.foldr insertDesc []

/-- Embeds `next_output_folder` (lines 64–72): list the base directory `output`,
keep names matching `^\d{3}$`, sort their numeric values descending, take
the head + 1 (or 1 when none), zero-pad to 3 digits, and return
`os.path.join("output", name)`.  The entry listing is the explicit
argument. -/
def next_output_folder (entries : List DirEntry) : String :=
  let existing := (entries.map DirEntry.name).filter isThreeDigits
  let nums := sortDesc (existing.map (fun d => digitsToNat d.toList))
  let next_num := match nums with
    | [] => 1
    | n :: _ => n + 1
  "output/" ++ zpad 3 next_num

/-- Embeds `format_timestamp` (lines 77–86).  Negative input is clamped to 0, the
milliseconds are `int(round(frac * 1000))`, and the floored whole seconds
are split into hours/minutes/seconds.  After clamping all quantities are
nonnegative, so the `ℤ → ℕ` conversions below are exact and Python's
`%d` formatting never shows a sign. -/
def format_timestamp (seconds : ℚ) : String :=
  let s := if seconds < 0 then 0 else seconds
  let ms := (pyRound ((s - (ratFloor s : ℚ)) * 1000)).toNat
  let total := (ratFloor s).toNat
  let hours := total / 3600
  let minutes := total % 3600 / 60
  let secs := total % 60
  zpad 2 hours ++ ":" ++ zpad 2 minutes ++ ":" ++ zpad 2 secs ++ "," ++ zpad 3 ms

/-- One Whisper segment, modelled as the three dictionary keys `write_srt`
reads with `seg.get(...)`.  `none` models an absent key; `stop` models the
key named `end` (a Lean keyword). -/
structure Segment where
  start : Option ℚ
  stop : Option ℚ
  text : Option String

/-- One iteration of the `write_srt` loop: the block written for segment
`seg` at 1-based index `i`. -/
def srt_block (i : ℕ) (seg : Segment) : String :=
  Nat.repr i ++ "\n"
    ++ format_timestamp (seg.start.getD 0) ++ " --> "
    ++ format_timestamp (seg.stop.getD 0) ++ "\n"
    ++ pyStrip (seg.text.getD "") ++ "\n\n"

/-- The `write_srt` loop from index `n` on. -/
def srt_content_aux : ℕ → List Segment → String
  | _, [] => ""
  | n, seg :: rest => srt_block n seg ++ srt_content_aux (n + 1) rest

/-- Embeds `write_srt` (lines 91–99): the full text written to the SRT file,
`enumerate(segments, start=1)` rendering one block per segment. -/
def write_srt (segments : List Segment) : String :=
  srt_content_aux 1 segments

/-- Outcome of the `ffprobe` subprocess in `detect_fps`: either any raised
exception (missing binary, non-video input, nonzero exit) or the decoded
stdout text. -/
inductive ProbeOutcome
  | failure
  | ok (output : String)

/-- Embeds `detect_fps` (lines 104–121).  On an exception: warn and return 24.0.
On output text: strip it; if it contains `/`, it must split into exactly
two float tokens (`num, den = output.split("/")` raises otherwise) whose
quotient is taken — Python raises `ZeroDivisionError` on a zero
denominator, also caught; a slash-free output is parsed as one float.  The
result is `round(fps, 3)`. -/
def detect_fps (outcome : ProbeOutcome) : ℚ :=
  match outcome with
  | .failure => 24
  | .ok output =>
    let out := (pyStrip output).toList
    if out.contains '/' then
      match splitOnPred (fun c => c = '/') out with
      | [num, den] =>
        match pyFloatL num, pyFloatL den with
        | some n, some d => if d = 0 then 24 else round3 (n / d)
        | _, _ => 24
      | _ => 24
    else
      match pyFloatL out with
      | some x => round3 x
      | none => 24

/-- Exit status of the `srt2subtitles` subprocess: success, or a
`CalledProcessError` carrying the tool's captured output. -/
inductive ToolResult
  | ok
  | error (output : String)

/-- Embeds `run_node_srt2subtitles` (lines 126–137): build the command with the
fps truncated to an integer, run it; on `CalledProcessError` print the
diagnostic and return `None`, otherwise return the fixed name
`subtitles.fcpxml`.  The returned pair is (Python return value, lines
printed). -/
def run_node_srt2subtitles (srt_path : String) (fps : ℚ) (tool : ToolResult) :
    Option String × List String :=
  let cmdLine := "Running: srt2subtitles " ++ srt_path ++ " " ++ toString (pyTrunc fps)
  match tool with
  | .error out => (none, [cmdLine, "Error running srt2subtitles: " ++ out])
  | .ok => (some "subtitles.fcpxml", [cmdLine])

/-! ## The orchestrator (`main`, lines 142–214) -/

/-- Everything `main` observes from the outside world, fixed up front:
the CLI argument, which external dependencies resolve, the listing of the
`output` base directory, the ffprobe outcome, the Whisper segments, the
converter outcome, and where a `subtitles.fcpxml` file is found afterwards. -/
structure Env where
  input : String
  ffmpegPresent : Bool
  ffprobePresent : Bool
  ytDlpInstalled : Bool
  downloadedFile : String
  inputIsFile : Bool
  outputEntries : List DirEntry
  probe : ProbeOutcome
  segments : List Segment
  tool : ToolResult
  fcpxInCwd : Bool
  fcpxInOut : Bool

/-- The observable outcome of one run: process exit code, the fps value
written to `framerate.txt` (if reached), the text written to
`subtitles.srt` (if reached), the run folder, the final location of the
converted file, and printed diagnostics relevant to the claims. -/
structure RunResult where
  exitCode : ℕ
  framerate : Option ℚ
  srtFile : Option String
  outFolder : Option String
  fcpxFinal : Option String
  log : List String

/-- A `sys.exit(1)` before any artifact is produced. -/
def mkAbort (msg : String) : RunResult :=
  { exitCode := 1, framerate := none, srtFile := none, outFolder := none
    fcpxFinal := none, log := [msg] }

/-- Steps 6–7 of `main`: locate `subtitles.fcpxml` in the working directory
first, then in the run folder; move it in, acknowledge it, or warn. -/
def finalize_fcpx (env : Env) (out_folder : String) : Option String × List String :=
  if env.fcpxInCwd then
    (some (out_folder ++ "/subtitles.fcpxml"),
      ["Moved Final Cut file to: " ++ out_folder ++ "/subtitles.fcpxml"])
  else if env.fcpxInOut then
    (some (out_folder ++ "/subtitles.fcpxml"),
      ["Final Cut file already in output: " ++ out_folder ++ "/subtitles.fcpxml"])
  else
    (none, ["subtitles.fcpxml not found!"])

/-- Embeds `main` (lines 142–214) as a pure function of the environment.
In order: `check_ffmpeg` exits 1 unless both tools resolve; a YouTube
input exits 1 when `yt_dlp` is missing, any other input exits 1 unless it
is an existing file; then the output slot is allocated, the media moved,
the fps probed and written to `framerate.txt`; transcription yielding no
segments exits 1; otherwise `subtitles.srt` is written, the converter is
invoked, the converted file relocated if found, and the process ends with
exit code 0. -/
def main (env : Env) : RunResult :=
  if env.ffmpegPresent && env.ffprobePresent then
    if is_youtube_url env.input && !env.ytDlpInstalled then
      mkAbort "Error: yt-dlp not installed. Run: pip install yt-dlp"
    else if !is_youtube_url env.input && !env.inputIsFile then
      mkAbort ("Error: input file not found: " ++ env.input)
    else
      let out_folder := next_output_folder env.outputEntries
      let fps := detect_fps env.probe
      if env.segments.isEmpty then
        { exitCode := 1, framerate := some fps, srtFile := none
          outFolder := some out_folder, fcpxFinal := none
          log := ["No segments found!"] }
      else
        let srt_path := out_folder ++ "/subtitles.srt"
        let conv := run_node_srt2subtitles srt_path fps env.tool
        let fin := finalize_fcpx env out_folder
        { exitCode := 0, framerate := some fps
          srtFile := some (write_srt env.segments)
          outFolder := some out_folder, fcpxFinal := fin.fst
          log := conv.snd ++ fin.snd }
  else
    mkAbort "Error: ffmpeg or ffprobe not found. Install ffmpeg."

/-! ## Definitions following the spec's words (for comparison only) -/

/-- Following the claim's words for C4: the portion of a URL after the
first `://`, or the whole string when no scheme separator occurs. -/
def afterSchemeL : List Char → Option (List Char)
  | [] => none
  | c :: rest =>
    if c = ':' then
      match rest with
      | '/' :: '/' :: tail => some tail
      | _ => afterSchemeL rest
    else afterSchemeL rest

/-- Following the claim's words for C4: the hostname of a URL — the
authority component, i.e. what precedes the first `/` of the part after
the scheme. -/
def urlHostname (s : String) : String :=
  let t := match afterSchemeL s.toList with
    | some tail => tail
    | none => s.toList
  String.mk (t.takeWhile (fun c => c ≠ '/'))

/-- Following the claim's words for C4: the hostname contains one of the
two known domain substrings. -/
def hostnameIsKnownHost (s : String) : Bool :=
  strContainsSub (urlHostname s) "youtube.com"
    || strContainsSub (urlHostname s) "youtu.be"

/-! ## Helper lemmas -/

theorem insertDesc_ne_nil (n : ℕ) (l : List ℕ) : insertDesc n l ≠ [] := by
  cases l with
  | nil => simp [insertDesc]
  | cons m t =>
    unfold insertDesc
    split <;> simp

theorem insertDesc_headD (n : ℕ) (l : List ℕ) :
    (insertDesc n l).headD 0 = Nat.max n (l.headD 0) := by
  cases l with
  | nil => simp [insertDesc]
  | cons m t =>
    unfold insertDesc
    split <;> simp <;> omega

theorem sortDesc_nil_iff (l : List ℕ) : sortDesc l = [] ↔ l = [] := by
  cases l with
  | nil => simp [sortDesc]
  | cons x t =>
    simp only [sortDesc, List.foldr_cons]
    exact ⟨fun h => absurd h (insertDesc_ne_nil x _), fun h => nomatch h⟩

theorem sortDesc_headD (l : List ℕ) :
    (sortDesc l).headD 0 = l.foldr Nat.max 0 := by
  induction l with
  | nil => simp [sortDesc]
  | cons x t ih =>
    simp only [sortDesc, List.foldr_cons] at ih ⊢
    rw [insertDesc_headD, ih]

theorem nextNum_spec (l : List ℕ) :
    (match sortDesc l with | [] => 1 | n :: _ => n + 1)
      = if l = [] then 1 else l.foldr Nat.max 0 + 1 := by
  rcases hl : sortDesc l with _ | ⟨n, t⟩
  · rw [if_pos ((sortDesc_nil_iff l).mp hl)]
  · have hne : l ≠ [] := by
      intro h
      rw [h] at hl
      simp [sortDesc] at hl
    rw [if_neg hne]
    have hh := sortDesc_headD l
    rw [hl] at hh
    simp only [List.headD_cons] at hh
    show n + 1 = l.foldr Nat.max 0 + 1
    omega

theorem srt_content_aux_append (xs ys : List Segment) (n : ℕ) :
    srt_content_aux n (xs ++ ys)
      = srt_content_aux n xs ++ srt_content_aux (n + xs.length) ys := by
  induction xs generalizing n with
  | nil => simp [srt_content_aux]
  | cons seg rest ih =>
    simp only [List.cons_append, srt_content_aux, List.length_cons, List.append_eq]
    rw [ih (n + 1), String.append_assoc]
    have hidx : n + 1 + rest.length = n + (rest.length + 1) := by omega
    rw [hidx]

/-! ## Claims -/

/- The Batteries rational-number operations are `@[irreducible]` by
default, which prevents `decide` from evaluating the concrete test
vectors below; restore ordinary unfolding for this file. -/
attribute [local semireducible] Rat.add Rat.mul Rat.inv Rat.sub Rat.ofScientific

/-- C3: `detect_fps` never raises past its boundary — every probe outcome
yields a rational (the model's functions are total): a raised probe
exception yields the fallback 24.0, a rational-form output `"30000/1001"`
yields the quotient rounded to 3 decimal places, 29.97, and unparsable or
over-split outputs (caught parse errors) also yield 24.0. -/
theorem detect_fps_total_and_fallback :
    detect_fps ProbeOutcome.failure = 24
    ∧ detect_fps (ProbeOutcome.ok "30000/1001") = (29.97 : ℚ)
    ∧ detect_fps (ProbeOutcome.ok "garbage") = 24
    ∧ detect_fps (ProbeOutcome.ok "1/2/3") = 24 := by
  refine ⟨rfl, by decide, by decide, by decide⟩

/-- C5 (divergence witness): `format_timestamp` does not always produce a
3-digit milliseconds field.  At input 0.9999 the fractional part times
1000 is 999.9, which rounds to 1000; `f"{1000:03d}"` prints all four
digits with no carry into the seconds, so the output is
`"00:00:00,1000"` — 13 characters instead of the fixed-width 12. -/
theorem format_timestamp_ms_overflow :
    format_timestamp (9999/10000 : ℚ) = "00:00:00,1000"
    ∧ (format_timestamp (9999/10000 : ℚ)).length = 13 := by
  refine ⟨by decide, by decide⟩

/-- C7: `format_timestamp` clamps nonpositive input to zero without
raising — in particular `format_timestamp (-5)` and `format_timestamp 0`
are both `"00:00:00,000"` — and `format_timestamp 3725.4567` is
`"01:02:05,457"` (456.7 ms rounds up to 457). -/
theorem format_timestamp_clamp_and_round :
    (∀ s : ℚ, s ≤ 0 → format_timestamp s = "00:00:00,000")
    ∧ format_timestamp (-5) = "00:00:00,000"
    ∧ format_timestamp 0 = "00:00:00,000"
    ∧ format_timestamp (3725.4567 : ℚ) = "01:02:05,457" := by
  refine ⟨?_, by decide, by decide, by decide⟩
  intro s hs
  rcases lt_or_eq_of_le hs with h | h
  · simp only [format_timestamp, if_pos h]
    decide
  · rw [h]
    decide

/-- Witness for C7: the clamping clause applied at the concrete
input −5. -/
theorem format_timestamp_clamp_and_round_witness :
    format_timestamp (-5) = "00:00:00,000" :=
  format_timestamp_clamp_and_round.1 (-5) (by norm_num)

/-- C6: the slot allocator computes (maximum numeric value among entries
whose names are exactly three decimal digits) + 1, or 1 when no such
entry exists, zero-padded to three digits: an empty listing yields `001`,
a listing of `001`, `002`, `005` yields `006`, and entries named `abc` or
`0001` are ignored in the max computation. -/
theorem next_output_folder_spec :
    (∀ entries : List DirEntry,
      next_output_folder entries = "output/" ++ zpad 3
        (if (entries.map DirEntry.name).filter isThreeDigits = [] then 1
         else (((entries.map DirEntry.name).filter isThreeDigits).map
           (fun d => digitsToNat d.toList)).foldr Nat.max 0 + 1))
    ∧ next_output_folder [] = "output/001"
    ∧ next_output_folder [⟨"001", true⟩, ⟨"002", true⟩, ⟨"005", true⟩]
        = "output/006"
    ∧ next_output_folder [⟨"001", true⟩, ⟨"002", true⟩, ⟨"005", true⟩,
        ⟨"abc", true⟩, ⟨"0001", true⟩] = "output/006" := by
  refine ⟨?_, by decide, by decide, by decide⟩
  intro entries
  simp only [next_output_folder]
  rw [nextNum_spec]
  by_cases h : (entries.map DirEntry.name).filter isThreeDigits = []
  · rw [if_pos h, if_pos (by rw [h]; rfl)]
  · rw [if_neg h, if_neg (by simpa using h)]

/-- C9 (counterexample): a plain file — a non-directory entry — named
`007` in the base directory does change the allocated slot: with it the
next slot is `008`, without it `001`.  `next_output_folder` filters
`os.listdir` names only and never tests the entry type. -/
theorem next_output_folder_counts_files :
    next_output_folder [⟨"007", false⟩] = "output/008"
    ∧ next_output_folder [] = "output/001" := by
  refine ⟨by decide, by decide⟩

/-- C9 (amended): the allocator depends only on the names in the base
directory listing, not on whether each entry is a directory; any entry
whose name is exactly three decimal digits — plain files included —
participates in the max computation. -/
theorem next_output_folder_ignores_entry_type :
    ∀ e1 e2 : List DirEntry, e1.map DirEntry.name = e2.map DirEntry.name →
      next_output_folder e1 = next_output_folder e2 := by
  intro e1 e2 h
  unfold next_output_folder
  rw [h]

/-- Witness for the amended C9: the file entry `007` and the directory
entry `007` allocate the same slot. -/
theorem next_output_folder_ignores_entry_type_witness :
    next_output_folder [⟨"007", false⟩] = next_output_folder [⟨"007", true⟩] :=
  next_output_folder_ignores_entry_type [⟨"007", false⟩] [⟨"007", true⟩] rfl

/-- C10: a segment lacking its `start` (resp. `end`) key is still emitted
as a cue block, with 0.0 substituted for the missing offset and that
timestamp rendered `00:00:00,000`. -/
theorem srt_block_missing_offsets :
    (∀ (i : ℕ) (q : Option ℚ) (txt : Option String),
      srt_block i { start := none, stop := q, text := txt }
        = Nat.repr i ++ "\n" ++ "00:00:00,000" ++ " --> "
          ++ format_timestamp (q.getD 0) ++ "\n" ++ pyStrip (txt.getD "") ++ "\n\n"
      ∧ srt_block i { start := q, stop := none, text := txt }
        = Nat.repr i ++ "\n" ++ format_timestamp (q.getD 0) ++ " --> "
          ++ "00:00:00,000" ++ "\n" ++ pyStrip (txt.getD "") ++ "\n\n")
    ∧ write_srt [{ start := none, stop := none, text := none }]
        = "1\n00:00:00,000 --> 00:00:00,000\n\n\n" := by
  have h0 : format_timestamp ((none : Option ℚ).getD 0) = "00:00:00,000" := by
    decide
  refine ⟨fun i q txt => ⟨?_, ?_⟩, by decide⟩
  · simp only [srt_block, h0]
  · simp only [srt_block, h0]

/-- C8: `write_srt` renders one cue block per segment, numbered 1-based in
segment order (the k-th segment appears as a block with index k+1), text
trimmed of surrounding whitespace and absent text rendered empty; on the
two-segment example the output is exactly the two blocks `1` and `2`, the
second one's text trimmed to `World`. -/
theorem write_srt_blocks :
    (∀ (segs : List Segment) (k : ℕ) (h : k < segs.length),
      ∃ pre post, write_srt segs = pre ++ srt_block (k + 1) segs[k] ++ post)
    ∧ write_srt [⟨some 0, some (3/2 : ℚ), some "Hello"⟩,
        ⟨some (3/2 : ℚ), some 3, some "World  "⟩]
      = "1\n00:00:00,000 --> 00:00:01,500\nHello\n\n"
        ++ "2\n00:00:01,500 --> 00:00:03,000\nWorld\n\n" := by
  constructor
  · intro segs k h
    refine ⟨srt_content_aux 1 (segs.take k),
      srt_content_aux (k + 2) (segs.drop (k + 1)), ?_⟩
    conv_lhs => rw [write_srt, ← List.take_append_drop k segs,
      List.drop_eq_getElem_cons h]
    rw [srt_content_aux_append]
    have hlen : (segs.take k).length = k := List.length_take_of_le (le_of_lt h)
    rw [hlen]
    simp only [srt_content_aux]
    rw [String.append_assoc]
    have h1 : 1 + k = k + 1 := by omega
    rw [h1]
  · decide

/-- Witness for C8: the general clause applied to the two-segment example
at k = 1 — the second segment appears as the block with index 2. -/
theorem write_srt_blocks_witness :
    ∃ pre post,
      write_srt [⟨some 0, some (3/2 : ℚ), some "Hello"⟩,
        ⟨some (3/2 : ℚ), some 3, some "World  "⟩]
      = pre ++ srt_block 2 ⟨some (3/2 : ℚ), some 3, some "World  "⟩ ++ post :=
  write_srt_blocks.1 _ 1 (by decide)

/-- C4 (counterexample): the input
`"http://example.com/watch/youtube.com"` has hostname `example.com`,
which contains neither known domain substring, yet the script treats it
as a remote (YouTube) source: the test is a substring match on the whole
input string, not on its hostname. -/
theorem is_youtube_url_not_hostname_based :
    is_youtube_url "http://example.com/watch/youtube.com" = true
    ∧ hostnameIsKnownHost "http://example.com/watch/youtube.com" = false
    ∧ urlHostname "http://example.com/watch/youtube.com" = "example.com" := by
  refine ⟨by decide, by decide, by decide⟩

/-- C4 (amended): the acquirer treats the input as a remote source exactly
when the whole input string contains one of the two domain substrings
(anywhere, not specifically in a hostname); any other input is treated as
a local path and the run exits with code 1 when that path is not an
existing file. -/
theorem is_youtube_url_whole_string_and_local_abort :
    (∀ s : String, is_youtube_url s
        = (strContainsSub s "youtube.com" || strContainsSub s "youtu.be"))
    ∧ (∀ env : Env, is_youtube_url env.input = false →
        env.inputIsFile = false → (main env).exitCode = 1) := by
  refine ⟨fun s => rfl, ?_⟩
  intro env hyu hfile
  unfold main
  split
  · simp [hyu, hfile, mkAbort]
  · simp [mkAbort]

/-- C2: whenever transcription yields zero segments, the process exits
with code 1 and the subtitle file is never written. -/
theorem main_zero_segments_aborts (env : Env) (h : env.segments = []) :
    (main env).exitCode = 1 ∧ (main env).srtFile = none := by
  have hempty : env.segments.isEmpty = true := by rw [h]; rfl
  unfold main
  split
  · split
    · simp [mkAbort]
    · split
      · simp [mkAbort]
      · simp [hempty]
  · simp [mkAbort]

/-- C1: once the run reaches the subtitle-writing step (dependencies
present, input acquired, at least one segment), a nonzero exit of the
conversion tool makes `run_node_srt2subtitles` print the diagnostic
output and return no result, and the run still completes with exit code 0
and the subtitle file written. -/
theorem main_conversion_failure_nonfatal (env : Env) (errOut : String)
    (hff : env.ffmpegPresent = true) (hfp : env.ffprobePresent = true)
    (hacq : (if is_youtube_url env.input then env.ytDlpInstalled
             else env.inputIsFile) = true)
    (hseg : env.segments ≠ [])
    (htool : env.tool = ToolResult.error errOut) :
    (main env).exitCode = 0
    ∧ (main env).srtFile = some (write_srt env.segments)
    ∧ (∀ (p : String) (fps : ℚ),
        (run_node_srt2subtitles p fps (ToolResult.error errOut)).fst = none)
    ∧ ("Error running srt2subtitles: " ++ errOut) ∈ (main env).log := by
  have hempty : env.segments.isEmpty = false := by
    cases hs : env.segments with
    | nil => exact absurd hs hseg
    | cons a l => rfl
  have c1cond : (env.ffmpegPresent && env.ffprobePresent) = true := by
    rw [hff, hfp]; rfl
  have c2cond : (is_youtube_url env.input && !env.ytDlpInstalled) = false := by
    cases hyu : is_youtube_url env.input with
    | true => rw [hyu] at hacq; simp only [if_true] at hacq; simp [hacq]
    | false => rfl
  have c3cond : (!is_youtube_url env.input && !env.inputIsFile) = false := by
    cases hyu : is_youtube_url env.input with
    | true => rfl
    | false =>
      rw [hyu] at hacq
      simp only [Bool.false_eq_true, if_false] at hacq
      simp [hacq]
  simp only [main, c1cond, c2cond, c3cond, hempty, htool, if_true,
    Bool.false_eq_true, if_false, run_node_srt2subtitles]
  simp [List.mem_append]

/-! ## Concrete environments for the witnesses -/

/-- A run in which everything succeeds except the conversion tool. -/
def envConvFail : Env :=
  { input := "video.mp4", ffmpegPresent := true, ffprobePresent := true
    ytDlpInstalled := false, downloadedFile := "", inputIsFile := true
    outputEntries := [], probe := ProbeOutcome.ok "25"
    segments := [{ start := some 0, stop := some 1, text := some "hi" }]
    tool := ToolResult.error "boom", fcpxInCwd := false, fcpxInOut := false }

/-- A run whose transcription yields no segments. -/
def envNoSegments : Env :=
  { envConvFail with segments := [], tool := ToolResult.ok }

/-- A run given a non-YouTube input that is not an existing file. -/
def envLocalMissing : Env :=
  { envConvFail with input := "nosuch.mp4", inputIsFile := false }

/-- Witness for C1: in the concrete failing-converter run the exit code
is 0, the subtitle text is written, the converter returns no result and
the diagnostic line is logged. -/
theorem main_conversion_failure_nonfatal_witness :
    (main envConvFail).exitCode = 0
    ∧ (main envConvFail).srtFile = some (write_srt envConvFail.segments)
    ∧ (∀ (p : String) (fps : ℚ),
        (run_node_srt2subtitles p fps (ToolResult.error "boom")).fst = none)
    ∧ ("Error running srt2subtitles: " ++ "boom") ∈ (main envConvFail).log :=
  main_conversion_failure_nonfatal envConvFail "boom" rfl rfl (by decide)
    (by exact List.cons_ne_nil _ _) rfl

/-- Witness for C2: the concrete zero-segment run exits 1 with no
subtitle file. -/
theorem main_zero_segments_aborts_witness :
    (main envNoSegments).exitCode = 1 ∧ (main envNoSegments).srtFile = none :=
  main_zero_segments_aborts envNoSegments rfl

/-- Witness for the amended C4: the concrete missing-local-file run exits
with code 1. -/
theorem is_youtube_url_whole_string_and_local_abort_witness :
    (main envLocalMissing).exitCode = 1 :=
  is_youtube_url_whole_string_and_local_abort.2 envLocalMissing (by decide) rfl

end SrtGen
